import Mathlib

/-!
Verification of the syscall dispatch layer of mkcheck
(source file: src/mkcheck/syscall.cpp).

The source defines one handler function per traced syscall, a dense
dispatch table `kHandlers` indexed by syscall number (designated
initializers, so the array length is the largest index plus one and the
gaps are null pointers), and the entry point `Handle`, which silently
returns on a negative syscall number, throws a runtime error naming the
number when the number is past the table or the table entry is null, and
otherwise invokes the handler.

The `Trace` class and `Args` structure are declared in trace.h and
syscall.h, which are not part of the sources; they are modelled from the
specification (sections 3 and 4.3).  Handlers mutate the trace in place
in C++; here each handler is a function from a trace to the new trace.
-/

set_option maxRecDepth 100000

namespace Mkcheck

/-- Modelled from the spec: DependencyEdge access kinds
(Read, Write, Rename-From, Rename-To, Delete). -/
inductive AccessKind where
  | read
  | write
  | renameFrom
  | renameTo
  | delete
deriving DecidableEq, Repr

/-- Modelled from the spec: a DependencyEdge is
(ProcessId, FileIdentity, AccessKind, sequence-number). -/
structure Edge where
  pid : Int
  file : String
  kind : AccessKind
  seq : Nat
deriving DecidableEq, Repr

/-- Modelled from the spec: per-process state — parent pid, current
working directory, and the descriptor table mapping descriptor numbers
to resolved FileIdentity paths. -/
structure ProcessState where
  parent : Option Int
  cwd : Option String
  fdTable : List (Nat × String)
deriving DecidableEq, Repr

/-- Modelled from the spec: the Trace owns the process state table
(pid to ProcessState) and the accumulated dependency edges. -/
structure Trace where
  procs : List (Int × ProcessState)
  edges : List Edge
deriving DecidableEq, Repr

/-- Modelled from the spec: the body of `Trace::SpawnTrace` is in
trace.cpp, which is not among the sources.  Per section 4.3
(ProcessSpawn row), spawning registers a new ProcessState for the child,
inheriting a snapshot of the parent descriptor table and cwd at spawn
time, and emits no edge.  A spawn from an unregistered parent is a fatal
internal inconsistency per section 4.2 and never arises along the traced
paths; it is modelled here as leaving the trace unchanged. -/
def Trace.SpawnTrace (t : Trace) (parent child : Int) : Trace :=
  match t.procs.find? (fun p => p.1 == parent) with
  | some pr =>
      { t with procs := (child, { pr.2 with parent := some parent }) :: t.procs }
  | none => t

/-- The fields of `Args` read by the handlers in syscall.cpp: the pid of
the issuing process and the syscall return value. -/
structure Args where
  PID : Int
  Return : Int
deriving DecidableEq, Repr

def sys_read (trace : Trace) (_ : Args) : Trace :=
  trace

def sys_write (trace : Trace) (_ : Args) : Trace :=
  trace

def sys_open (trace : Trace) (_ : Args) : Trace :=
  trace

def sys_close (trace : Trace) (_ : Args) : Trace :=
  trace

def sys_stat (trace : Trace) (_ : Args) : Trace :=
  trace

def sys_fstat (trace : Trace) (_ : Args) : Trace :=
  trace

def sys_lstat (trace : Trace) (_ : Args) : Trace :=
  trace

def sys_ioctl (trace : Trace) (_ : Args) : Trace :=
  trace

def sys_pread64 (trace : Trace) (_ : Args) : Trace :=
  trace

def sys_readv (trace : Trace) (_ : Args) : Trace :=
  trace

def sys_access (trace : Trace) (_ : Args) : Trace :=
  trace

def sys_pipe (trace : Trace) (_ : Args) : Trace :=
  trace

def sys_dup (trace : Trace) (_ : Args) : Trace :=
  trace

def sys_dup2 (trace : Trace) (_ : Args) : Trace :=
  trace

def sys_clone (trace : Trace) (args : Args) : Trace :=
  if args.Return > 0 then
    trace.SpawnTrace args.PID args.Return
  else
    trace

def sys_vfork (trace : Trace) (args : Args) : Trace :=
  if args.Return > 0 then
    trace.SpawnTrace args.PID args.Return
  else
    trace

def sys_fcntl (trace : Trace) (_ : Args) : Trace :=
  trace

def sys_getdents (trace : Trace) (_ : Args) : Trace :=
  trace

def sys_chdir (trace : Trace) (_ : Args) : Trace :=
  trace

def sys_rename (trace : Trace) (_ : Args) : Trace :=
  trace

def sys_unlink (trace : Trace) (_ : Args) : Trace :=
  trace

def sys_readlink (trace : Trace) (_ : Args) : Trace :=
  trace

def sys_chmod (trace : Trace) (_ : Args) : Trace :=
  trace

def sys_pipe2 (trace : Trace) (_ : Args) : Trace :=
  trace

def sys_ignore (trace : Trace) (_ : Args) : Trace :=
  trace

/-- In C++ the table holds function pointers; here each handler function
is named by a constructor so that table entries can be compared. -/
inductive Handler where
  | sys_read
  | sys_write
  | sys_open
  | sys_close
  | sys_stat
  | sys_fstat
  | sys_lstat
  | sys_ioctl
  | sys_pread64
  | sys_readv
  | sys_access
  | sys_pipe
  | sys_dup
  | sys_dup2
  | sys_clone
  | sys_vfork
  | sys_fcntl
  | sys_getdents
  | sys_chdir
  | sys_rename
  | sys_unlink
  | sys_readlink
  | sys_chmod
  | sys_pipe2
  | sys_ignore
deriving DecidableEq, Repr

/-- Dereference a handler name to the handler function it denotes. -/
def runHandler : Handler → Trace → Args → Trace
  | Handler.sys_read => sys_read
  | Handler.sys_write => sys_write
  | Handler.sys_open => sys_open
  | Handler.sys_close => sys_close
  | Handler.sys_stat => sys_stat
  | Handler.sys_fstat => sys_fstat
  | Handler.sys_lstat => sys_lstat
  | Handler.sys_ioctl => sys_ioctl
  | Handler.sys_pread64 => sys_pread64
  | Handler.sys_readv => sys_readv
  | Handler.sys_access => sys_access
  | Handler.sys_pipe => sys_pipe
  | Handler.sys_dup => sys_dup
  | Handler.sys_dup2 => sys_dup2
  | Handler.sys_clone => sys_clone
  | Handler.sys_vfork => sys_vfork
  | Handler.sys_fcntl => sys_fcntl
  | Handler.sys_getdents => sys_getdents
  | Handler.sys_chdir => sys_chdir
  | Handler.sys_rename => sys_rename
  | Handler.sys_unlink => sys_unlink
  | Handler.sys_readlink => sys_readlink
  | Handler.sys_chmod => sys_chmod
  | Handler.sys_pipe2 => sys_pipe2
  | Handler.sys_ignore => sys_ignore

/- The x86-64 Linux syscall numbers from sys/syscall.h used by the
designated initializers of kHandlers. -/

def SYS_read : Nat := 0
def SYS_write : Nat := 1
def SYS_open : Nat := 2
def SYS_close : Nat := 3
def SYS_stat : Nat := 4
def SYS_fstat : Nat := 5
def SYS_lstat : Nat := 6
def SYS_lseek : Nat := 8
def SYS_mmap : Nat := 9
def SYS_mprotect : Nat := 10
def SYS_munmap : Nat := 11
def SYS_brk : Nat := 12
def SYS_rt_sigaction : Nat := 13
def SYS_rt_sigprocmask : Nat := 14
def SYS_rt_sigreturn : Nat := 15
def SYS_ioctl : Nat := 16
def SYS_pread64 : Nat := 17
def SYS_readv : Nat := 19
def SYS_access : Nat := 21
def SYS_pipe : Nat := 22
def SYS_dup : Nat := 32
def SYS_dup2 : Nat := 33
def SYS_getpid : Nat := 39
def SYS_clone : Nat := 56
def SYS_vfork : Nat := 58
def SYS_execve : Nat := 59
def SYS_wait4 : Nat := 61
def SYS_fcntl : Nat := 72
def SYS_getdents : Nat := 78
def SYS_getcwd : Nat := 79
def SYS_chdir : Nat := 80
def SYS_rename : Nat := 82
def SYS_unlink : Nat := 87
def SYS_readlink : Nat := 89
def SYS_chmod : Nat := 90
def SYS_umask : Nat := 95
def SYS_getrlimit : Nat := 97
def SYS_getrusage : Nat := 98
def SYS_sysinfo : Nat := 99
def SYS_sigaltstack : Nat := 131
def SYS_arch_prctl : Nat := 158
def SYS_setrlimit : Nat := 160
def SYS_futex : Nat := 202
def SYS_set_tid_address : Nat := 218
def SYS_exit_group : Nat := 231
def SYS_set_robust_list : Nat := 273
def SYS_pipe2 : Nat := 293

/-- The designated initializers of kHandlers, in source order:
each pair is (array index, handler installed at that index). -/
def handlerInits : List (Nat × Handler) :=
  [ (SYS_read, Handler.sys_read),
    (SYS_write, Handler.sys_write),
    (SYS_open, Handler.sys_open),
    (SYS_close, Handler.sys_close),
    (SYS_stat, Handler.sys_stat),
    (SYS_fstat, Handler.sys_fstat),
    (SYS_lstat, Handler.sys_lstat),
    (SYS_lseek, Handler.sys_ignore),
    (SYS_mmap, Handler.sys_ignore),
    (SYS_mprotect, Handler.sys_ignore),
    (SYS_munmap, Handler.sys_ignore),
    (SYS_brk, Handler.sys_ignore),
    (SYS_rt_sigaction, Handler.sys_ignore),
    (SYS_rt_sigprocmask, Handler.sys_ignore),
    (SYS_rt_sigreturn, Handler.sys_ignore),
    (SYS_ioctl, Handler.sys_ioctl),
    (SYS_pread64, Handler.sys_pread64),
    (SYS_readv, Handler.sys_readv),
    (SYS_access, Handler.sys_access),
    (SYS_pipe, Handler.sys_pipe),
    (SYS_dup, Handler.sys_dup),
    (SYS_dup2, Handler.sys_dup2),
    (SYS_getpid, Handler.sys_ignore),
    (SYS_clone, Handler.sys_clone),
    (SYS_vfork, Handler.sys_vfork),
    (SYS_execve, Handler.sys_ignore),
    (SYS_wait4, Handler.sys_ignore),
    (SYS_fcntl, Handler.sys_fcntl),
    (SYS_getdents, Handler.sys_getdents),
    (SYS_getcwd, Handler.sys_ignore),
    (SYS_chdir, Handler.sys_chdir),
    (SYS_rename, Handler.sys_rename),
    (SYS_unlink, Handler.sys_unlink),
    (SYS_readlink, Handler.sys_readlink),
    (SYS_chmod, Handler.sys_chmod),
    (SYS_umask, Handler.sys_ignore),
    (SYS_sysinfo, Handler.sys_ignore),
    (SYS_getrlimit, Handler.sys_ignore),
    (SYS_getrusage, Handler.sys_ignore),
    (SYS_sigaltstack, Handler.sys_ignore),
    (SYS_arch_prctl, Handler.sys_ignore),
    (SYS_setrlimit, Handler.sys_ignore),
    (SYS_futex, Handler.sys_ignore),
    (SYS_set_tid_address, Handler.sys_ignore),
    (SYS_exit_group, Handler.sys_ignore),
    (SYS_set_robust_list, Handler.sys_ignore),
    (SYS_pipe2, Handler.sys_pipe2) ]

/-- The length of the C array: largest designated index plus one.
This is the value of sizeof(kHandlers) / sizeof(kHandlers[0]). -/
def kHandlersSize : Nat :=
  (handlerInits.map Prod.fst).foldr max 0 + 1

/-- The dispatch table: entry i is the handler installed at index i, or
none where no designated initializer names i (a null pointer in C). -/
def kHandlers : List (Option Handler) :=
  (List.range kHandlersSize).map
    (fun i => (handlerInits.find? (fun p => p.1 == i)).map Prod.snd)

/-- Outcome of one call to Handle: returned without dispatch (negative
number), dispatched to a handler, threw the runtime error naming the
unhandled syscall number, or read the table out of bounds (the C++
program has undefined behaviour there). -/
inductive HandleResult where
  | ignored
  | handled
  | unclassified (sno : Int)
  | outOfBoundsRead
deriving DecidableEq, Repr

/-- The entry point of syscall.cpp.  Mirrors the control flow exactly:
a negative number returns at once; a number strictly greater than the
array length throws; otherwise kHandlers[sno] is read — when sno equals
the array length that read is past the end of the array, modelled as the
outOfBoundsRead outcome — and a null entry throws, a non-null entry is
invoked on the trace. -/
def Handle (trace : Trace) (sno : Int) (args : Args) : HandleResult × Trace :=
  if sno < 0 then
    (HandleResult.ignored, trace)
  else if sno > (kHandlersSize : Int) then
    (HandleResult.unclassified sno, trace)
  else
    match kHandlers.get? sno.toNat with
    | none => (HandleResult.outOfBoundsRead, trace)
    | some none => (HandleResult.unclassified sno, trace)
    | some (some h) => (HandleResult.handled, runHandler h trace args)

/- Concrete fixtures used by witnesses and counterexample evaluations. -/

/-- A process state with cwd /tmp and descriptor 3 open on /tmp/a.txt. -/
def ps0 : ProcessState :=
  { parent := none, cwd := some "/tmp", fdTable := [(3, "/tmp/a.txt")] }

/-- A trace with the single registered process 1 in state ps0. -/
def trace0 : Trace :=
  { procs := [(1, ps0)], edges := [] }

/-- A trace whose process 1 has an empty descriptor table. -/
def traceNoFd : Trace :=
  { procs := [(1, { parent := none, cwd := some "/tmp", fdTable := [] })],
    edges := [] }

def args0 : Args := { PID := 1, Return := 0 }

def argsNeg : Args := { PID := 1, Return := -1 }

def argsSpawn : Args := { PID := 1, Return := 5 }

def argsRead : Args := { PID := 1, Return := 10 }

def argsOpen : Args := { PID := 1, Return := 3 }

/-- Every handler other than sys_clone and sys_vfork is an empty stub
and returns the trace unchanged. -/
theorem runHandler_noop (h : Handler) (t : Trace) (a : Args)
    (hc : h ≠ Handler.sys_clone) (hv : h ≠ Handler.sys_vfork) :
    runHandler h t a = t := by
  cases h <;> first
    | rfl
    | exact absurd rfl hc
    | exact absurd rfl hv

/-- With a non-positive return value every handler, the spawn handlers
included, returns the trace unchanged. -/
theorem runHandler_nonpos (h : Handler) (t : Trace) (a : Args)
    (ha : a.Return ≤ 0) : runHandler h t a = t := by
  cases h <;> try rfl
  · show sys_clone t a = t
    unfold sys_clone
    rw [if_neg (by omega)]
  · show sys_vfork t a = t
    unfold sys_vfork
    rw [if_neg (by omega)]

/-- C1: the claim that every syscall number without a table entry makes
Handle fail loudly with the unclassified-syscall error fails on the code
at sno = 294: the table length is 294 and index 294 has no entry, yet
the strict bounds check admits it, and Handle reads kHandlers[294] past
the end of the array — undefined behaviour, not a guaranteed error
naming the syscall. -/
theorem unclassified_not_always_fatal :
    kHandlersSize = 294 ∧ kHandlers.get? 294 = none ∧
    ∀ t a, Handle t 294 a = (HandleResult.outOfBoundsRead, t) :=
  ⟨rfl, rfl, fun _ _ => rfl⟩

/-- C2: the claim that every index at or past the end of kHandlers is
rejected by the bounds check fails at sno = 294: the check uses strict
greater-than against the table length 294, so 294 passes it and the
table read kHandlers[294] is out of bounds. -/
theorem bounds_check_off_by_one :
    ¬ ((294 : Int) > (kHandlersSize : Int)) ∧
    kHandlers.length = 294 ∧
    Handle trace0 294 args0 = (HandleResult.outOfBoundsRead, trace0) :=
  ⟨by decide, by decide, rfl⟩

/-- C3: every syscall event with a negative return value leaves the
trace exactly as it was: no process state update and no edge. -/
theorem failed_syscall_frame (t : Trace) (sno : Int) (a : Args)
    (h : a.Return < 0) : (Handle t sno a).2 = t := by
  unfold Handle
  split
  · rfl
  · split
    · rfl
    · cases hk : kHandlers.get? sno.toNat with
      | none => simp
      | some o =>
        cases o with
        | none => simp
        | some hh => simp [runHandler_nonpos hh t a h.le]

/-- Witness for C3 at a concrete failed open. -/
theorem failed_syscall_frame_witness :
    argsNeg.Return < 0 ∧ (Handle trace0 (SYS_open : Int) argsNeg).2 = trace0 :=
  ⟨by decide, failed_syscall_frame trace0 (SYS_open : Int) argsNeg (by decide)⟩

/-- C4: a clone or vfork event with positive return value registers a
new child trace under the returned pid, inheriting the parent state
(descriptor table and cwd) with the parent link set, and emits no edge;
with a zero or negative return value nothing is registered. -/
theorem clone_vfork_spawn (t : Trace) (a : Args) (ps : ProcessState)
    (hfind : t.procs.find? (fun p => p.1 == a.PID) = some (a.PID, ps)) :
    (0 < a.Return →
      sys_clone t a =
        { t with procs := (a.Return, { ps with parent := some a.PID }) :: t.procs } ∧
      sys_vfork t a = sys_clone t a ∧
      (sys_clone t a).edges = t.edges) ∧
    (a.Return ≤ 0 → sys_clone t a = t ∧ sys_vfork t a = t) := by
  constructor
  · intro hpos
    have h1 : sys_clone t a =
        { t with procs := (a.Return, { ps with parent := some a.PID }) :: t.procs } := by
      unfold sys_clone Trace.SpawnTrace
      rw [if_pos hpos, hfind]
    exact ⟨h1, rfl, by rw [h1]⟩
  · intro hle
    refine ⟨?_, ?_⟩
    · unfold sys_clone
      rw [if_neg (by omega)]
    · unfold sys_vfork
      rw [if_neg (by omega)]

/-- Witness for C4: clone in process 1 returning child pid 5. -/
theorem clone_vfork_spawn_witness :
    trace0.procs.find? (fun p => p.1 == argsSpawn.PID) = some (argsSpawn.PID, ps0) ∧
    ((0 < argsSpawn.Return →
      sys_clone trace0 argsSpawn =
        { trace0 with
            procs :=
              (argsSpawn.Return, { ps0 with parent := some argsSpawn.PID }) :: trace0.procs } ∧
      sys_vfork trace0 argsSpawn = sys_clone trace0 argsSpawn ∧
      (sys_clone trace0 argsSpawn).edges = trace0.edges) ∧
    (argsSpawn.Return ≤ 0 →
      sys_clone trace0 argsSpawn = trace0 ∧ sys_vfork trace0 argsSpawn = trace0)) :=
  ⟨rfl, clone_vfork_spawn trace0 argsSpawn ps0 rfl⟩

/-- C5: the claim that a successful read, pread64 or getdents emits one
Read edge fails on the code: those handlers are empty stubs, so a
successful read on descriptor 3 (return value 10) leaves the trace
unchanged and the edge list empty. -/
theorem read_pread_getdents_emit_nothing :
    Handle trace0 (SYS_read : Int) argsRead = (HandleResult.handled, trace0) ∧
    Handle trace0 (SYS_pread64 : Int) argsRead = (HandleResult.handled, trace0) ∧
    Handle trace0 (SYS_getdents : Int) argsRead = (HandleResult.handled, trace0) ∧
    (Handle trace0 (SYS_read : Int) argsRead).2.edges = [] :=
  ⟨rfl, rfl, rfl, rfl⟩

/-- C6: the claim that a successful rename emits a matched
Rename-From / Rename-To pair fails on the code: sys_rename is an empty
stub, so a successful rename (return value 0) emits no edge at all. -/
theorem rename_emits_nothing :
    Handle trace0 (SYS_rename : Int) args0 = (HandleResult.handled, trace0) ∧
    (Handle trace0 (SYS_rename : Int) args0).2.edges = [] :=
  ⟨rfl, rfl⟩

/-- C7: the claim that a successful open adds a descriptor entry to the
issuing process fails on the code: sys_open is an empty stub, so an open
returning descriptor 3 leaves the descriptor table of process 1
empty. -/
theorem open_adds_no_descriptor :
    Handle traceNoFd (SYS_open : Int) argsOpen = (HandleResult.handled, traceNoFd) ∧
    ((Handle traceNoFd (SYS_open : Int) argsOpen).2.procs.find?
        (fun p => p.1 == 1)).map (fun pr => pr.2.fdTable) = some [] :=
  ⟨rfl, rfl⟩

/-- C8: the claim that a successful close removes the descriptor from
the table fails on the code: sys_close is an empty stub, so closing
descriptor 3 leaves it in the table of process 1.  Closing a descriptor
unknown to the table is indeed a no-op. -/
theorem close_removes_nothing :
    Handle trace0 (SYS_close : Int) args0 = (HandleResult.handled, trace0) ∧
    ((Handle trace0 (SYS_close : Int) args0).2.procs.find?
        (fun p => p.1 == 1)).map (fun pr => pr.2.fdTable) =
      some [(3, "/tmp/a.txt")] ∧
    Handle traceNoFd (SYS_close : Int) args0 = (HandleResult.handled, traceNoFd) :=
  ⟨rfl, rfl, rfl⟩

/-- C9: dispatching any syscall whose table entry is not the clone or
vfork handler leaves the trace completely unchanged: those two are the
only handlers that mutate the trace. -/
theorem only_clone_vfork_mutate (sno : Int) (t : Trace) (a : Args)
    (hc : kHandlers.get? sno.toNat ≠ some (some Handler.sys_clone))
    (hv : kHandlers.get? sno.toNat ≠ some (some Handler.sys_vfork)) :
    (Handle t sno a).2 = t := by
  unfold Handle
  split
  · rfl
  · split
    · rfl
    · cases hk : kHandlers.get? sno.toNat with
      | none => simp
      | some o =>
        cases o with
        | none => simp
        | some hh =>
          have h1 : hh ≠ Handler.sys_clone := by
            intro he
            rw [he] at hk
            exact hc hk
          have h2 : hh ≠ Handler.sys_vfork := by
            intro he
            rw [he] at hk
            exact hv hk
          simp [runHandler_noop hh t a h1 h2]

/-- Witness for C9 at the read syscall. -/
theorem only_clone_vfork_mutate_witness :
    kHandlers.get? ((0 : Int)).toNat ≠ some (some Handler.sys_clone) ∧
    kHandlers.get? ((0 : Int)).toNat ≠ some (some Handler.sys_vfork) ∧
    (Handle trace0 0 args0).2 = trace0 :=
  ⟨by decide, by decide,
    only_clone_vfork_mutate 0 trace0 args0 (by decide) (by decide)⟩

/-- C10: a negative syscall number makes Handle return immediately:
no handler runs, no error is raised, the trace is unchanged. -/
theorem negative_sno_ignored (t : Trace) (a : Args) (sno : Int)
    (h : sno < 0) : Handle t sno a = (HandleResult.ignored, t) := by
  unfold Handle
  rw [if_pos h]

/-- Witness for C10 at sno = -1. -/
theorem negative_sno_ignored_witness :
    (-1 : Int) < 0 ∧ Handle trace0 (-1) args0 = (HandleResult.ignored, trace0) :=
  ⟨by decide, negative_sno_ignored trace0 args0 (-1) (by decide)⟩

end Mkcheck
